import Mathlib

/-
Verification of the listing reconciliation core of the nestd repository
(scraper/src/db.js and scraper/src/index.js), shallowly embedded in Lean.

Modelling conventions:
- PostgreSQL rows are Lean structures; tables are lists in insertion order.
- Timestamps are integers (milliseconds); `NOW()` is an explicit `now`
  argument threaded through each operation.
- Nullable SQL columns and optional JS fields are `Option` values.
- JavaScript truthiness tests on a nullable number (`if (data.price)`)
  are modelled by `truthyInt`: null and 0 are falsy, everything else truthy.
- A store operation that can throw (the per-row transaction of
  `upsertListing`) is modelled in the run loop by pairing each snapshot
  with a success flag; on failure the transaction rolls back (state
  unchanged) and the exception propagates out of the loop, exactly as the
  uncaught `await db.upsertListing(listing)` does in index.js.
- Geocoding enrichment only fills missing coordinates from an external
  collaborator and never fails the run; snapshots here already carry their
  final coordinates, so it needs no separate model.
-/

namespace Nestd

/-- `alert_type` column: CHECK (alert_type IN ('new_listing','price_drop','price_increase')). -/
inductive AlertType
  | new_listing
  | price_drop
  | price_increase
deriving DecidableEq, Repr

/-- `scrape_runs.status`: 'running' (default), 'completed', 'failed'. -/
inductive RunStatus
  | running
  | completed
  | failed
deriving DecidableEq, Repr

/-- One scraped listing snapshot, as handed to `db.upsertListing` in index.js. -/
structure Snapshot where
  detailUrl : String
  price : Option Int
  street : String
  town : Option String
  province : Option String
  beds : Int
  baths : Int
  sqft : Option Int
  lat : Option Int
  lng : Option Int
  imageUrls : Option (List String)
  listedAt : Option Int
deriving DecidableEq, Repr

/-- A row of the `listings` table. -/
structure Listing where
  id : Nat
  realtorUrl : String
  price : Option Int
  street : String
  town : Option String
  province : Option String
  beds : Int
  baths : Int
  sqft : Option Int
  lat : Option Int
  lng : Option Int
  imageUrls : List String
  listedAt : Option Int
  firstSeenAt : Int
  lastSeenAt : Int
  isActive : Bool
  createdAt : Int
  updatedAt : Int
deriving DecidableEq, Repr

/-- A row of the append-only `price_history` table. -/
structure PricePoint where
  listingId : Nat
  price : Int
  recordedAt : Int
deriving DecidableEq, Repr

/-- A row of the `scrape_runs` table. -/
structure ScrapeRun where
  id : Nat
  startedAt : Int
  finishedAt : Option Int
  listingsFound : Nat
  listingsNew : Nat
  listingsUpdated : Nat
  priceChanges : Nat
  status : RunStatus
  error : Option String
deriving DecidableEq, Repr

/-- A row of the `alerts` table (columns written by `createAlert`). -/
structure Alert where
  userId : Nat
  listingId : Nat
  savedSearchId : Option Nat
  alertType : AlertType
  oldPrice : Option Int
  newPrice : Option Int
deriving DecidableEq, Repr

/-- The persistent store: the tables touched by the reconciliation core,
plus the SERIAL counters for fresh primary keys. -/
structure DB where
  listings : List Listing
  priceHistory : List PricePoint
  scrapeRuns : List ScrapeRun
  alerts : List Alert
  nextListingId : Nat
  nextRunId : Nat
deriving DecidableEq, Repr

/-- JS truthiness of a nullable integer: `null`, `undefined` and `0` are
falsy; any other number is truthy.  Used for `if (data.price)` and
`data.price && oldPrice && ...` in db.js. -/
def truthyInt : Option Int → Bool
  | none => false
  | some v => v != 0

/-- JS `x || null`: a falsy coordinate collapses to null
(`data.lat || null` in the INSERT of `upsertListing`). -/
def jsOrNull : Option Int → Option Int
  | none => none
  | some v => if v = 0 then none else some v

/-- `SELECT id, price FROM listings WHERE realtor_url = $1` — first row
with the given natural key. -/
def findListing (db : DB) (url : String) : Option Listing :=
  db.listings.find? (fun l => l.realtorUrl == url)

/-- The value returned by `db.upsertListing`:
`{ listingId, isNew, priceChanged, oldPrice, newPrice }`. -/
structure UpsertResult where
  listingId : Nat
  isNew : Bool
  priceChanged : Bool
  oldPrice : Option Int
  newPrice : Option Int
deriving DecidableEq, Repr

/-- The row built by the INSERT statement of `upsertListing` (db.js lines
213-232): explicit columns from the snapshot, timestamp and activity
columns from their table defaults (`NOW()` / TRUE). -/
def insertedRow (now : Int) (data : Snapshot) (listingId : Nat) : Listing :=
  { id := listingId
    realtorUrl := data.detailUrl
    price := data.price
    street := data.street
    town := data.town
    province := data.province
    beds := data.beds
    baths := data.baths
    sqft := data.sqft
    lat := jsOrNull data.lat
    lng := jsOrNull data.lng
    imageUrls := data.imageUrls.getD []
    listedAt := data.listedAt
    firstSeenAt := now
    lastSeenAt := now
    isActive := true
    createdAt := now
    updatedAt := now }

/-- The SET clause of the UPDATE statement of `upsertListing` (db.js lines
248-257): price, last_seen_at, updated_at, is_active, and
`image_urls = COALESCE($3, image_urls)`. -/
def updatedRow (now : Int) (data : Snapshot) (x : Listing) : Listing :=
  { x with price := data.price
           lastSeenAt := now
           updatedAt := now
           isActive := true
           imageUrls := data.imageUrls.getD x.imageUrls }

/-- `INSERT INTO price_history (listing_id, price) VALUES ($1, $2)` with
`recorded_at` defaulting to `NOW()`. -/
def recordPrice (db : DB) (listingId : Nat) (price : Int) (now : Int) : DB :=
  { db with priceHistory := db.priceHistory ++ [⟨listingId, price, now⟩] }

/-- `db.upsertListing(data)` from scraper/src/db.js, lines 195-284.
One transaction: look up the listing by `realtor_url`; if absent, INSERT a
new row and, when the price is truthy, one initial price-history row; if
present, UPDATE the mutable columns, and when both new and old price are
truthy and differ, append a price-history row and report the change. -/
def upsertListing (db : DB) (now : Int) (data : Snapshot) : DB × UpsertResult :=
  match findListing db data.detailUrl with
  | none =>
    let listingId := db.nextListingId
    let db1 : DB :=
      { db with listings := db.listings ++ [insertedRow now data listingId]
                nextListingId := listingId + 1 }
    let db2 : DB :=
      if truthyInt data.price then recordPrice db1 listingId (data.price.getD 0) now
      else db1
    (db2, ⟨listingId, true, false, none, data.price⟩)
  | some l =>
    let listingId := l.id
    let oldPrice := l.price
    let db1 : DB :=
      { db with listings := db.listings.map (fun x =>
          if x.id == listingId then updatedRow now data x else x) }
    let priceChanged := truthyInt data.price && truthyInt oldPrice
      && (data.price != oldPrice)
    let db2 : DB :=
      if priceChanged then recordPrice db1 listingId (data.price.getD 0) now
      else db1
    (db2, ⟨listingId, false, priceChanged, oldPrice, data.price⟩)

/-- `INTERVAL '24 hours'` in milliseconds. -/
def graceWindow : Int := 24 * 60 * 60 * 1000

/-- `db.markInactiveListings(activeIds)` from db.js, lines 289-300.
Early return when `activeIds` is empty; otherwise mark inactive every
active listing whose id is not in `activeIds` and whose `last_seen_at` is
older than 24 hours. -/
def markInactiveListings (db : DB) (now : Int) (activeIds : List Nat) : DB :=
  if activeIds.isEmpty then db
  else
    { db with listings := db.listings.map (fun l =>
        if !(activeIds.contains l.id) && l.isActive
            && decide (l.lastSeenAt < now - graceWindow) then
          { l with isActive := false, updatedAt := now }
        else l) }

/-- `db.startScrapeRun()`: `INSERT INTO scrape_runs DEFAULT VALUES
RETURNING id` — unconditionally appends a fresh run with the column
defaults (status 'running', zero counts, null finished_at/error). -/
def startScrapeRun (db : DB) (now : Int) : DB × Nat :=
  let runId := db.nextRunId
  ({ db with
      scrapeRuns := db.scrapeRuns ++
        [⟨runId, now, none, 0, 0, 0, 0, RunStatus.running, none⟩]
      nextRunId := runId + 1 },
   runId)

/-- The `stats` object of `runScrape` in index.js. -/
structure Stats where
  found : Nat
  listingsNew : Nat
  updated : Nat
  priceChanges : Nat
deriving DecidableEq, Repr

/-- `db.completeScrapeRun(runId, stats)` from db.js, lines 163-175. -/
def completeScrapeRun (db : DB) (now : Int) (runId : Nat) (stats : Stats) : DB :=
  { db with scrapeRuns := db.scrapeRuns.map (fun r =>
      if r.id == runId then
        { r with finishedAt := some now
                 listingsFound := stats.found
                 listingsNew := stats.listingsNew
                 listingsUpdated := stats.updated
                 priceChanges := stats.priceChanges
                 status := RunStatus.completed }
      else r) }

/-- `db.failScrapeRun(runId, error)` from db.js, lines 180-189. -/
def failScrapeRun (db : DB) (now : Int) (runId : Nat) (err : String) : DB :=
  { db with scrapeRuns := db.scrapeRuns.map (fun r =>
      if r.id == runId then
        { r with finishedAt := some now
                 status := RunStatus.failed
                 error := some err }
      else r) }

/-- `db.createAlert(userId, listingId, type, savedSearchId, oldPrice,
newPrice)` from db.js, lines 448-454: one INSERT into `alerts`. -/
def createAlert (db : DB) (userId listingId : Nat) (alertType : AlertType)
    (savedSearchId : Option Nat) (oldPrice newPrice : Option Int) : DB :=
  { db with alerts := db.alerts ++
      [⟨userId, listingId, savedSearchId, alertType, oldPrice, newPrice⟩] }

/-- Sequential reconciliation of a batch with no store failures: fold
`upsertListing` over the snapshots, collecting the per-snapshot results. -/
def applyBatch (now : Int) : DB → List Snapshot → DB × List UpsertResult
  | db, [] => (db, [])
  | db, s :: rest =>
    let p := upsertListing db now s
    let q := applyBatch now p.1 rest
    (q.1, p.2 :: q.2)

/-- Mutable state of the `for (const listing of listings)` loop in
`runScrape` (index.js, lines 74-102): the store, the `stats` counters, the
accumulated `activeListingIds`, and whether an upsert threw. -/
structure LoopState where
  db : DB
  stats : Stats
  ids : List Nat
  aborted : Bool
deriving DecidableEq, Repr

/-- The message of the exception a failing store operation throws
(`err.message` in index.js); its exact text is irrelevant to the logic. -/
def storeFailureMessage : String := "store operation failed"

/-- One successful iteration of the `for (const listing of listings)` loop
(index.js lines 74-102): `stats.found++`, the upsert, pushing the returned
id onto `activeListingIds`, and bumping the new/price-change/updated
counter. -/
def stepState (now : Int) (st : LoopState) (s : Snapshot) : LoopState :=
  let stats1 := { st.stats with found := st.stats.found + 1 }
  let p := upsertListing st.db now s
  let r := p.2
  let stats2 :=
    if r.isNew then { stats1 with listingsNew := stats1.listingsNew + 1 }
    else if r.priceChanged then
      { stats1 with priceChanges := stats1.priceChanges + 1 }
    else { stats1 with updated := stats1.updated + 1 }
  ⟨p.1, stats2, st.ids ++ [r.listingId], st.aborted⟩

/-- The per-snapshot loop of `runScrape`.  Each snapshot is paired with a
flag saying whether its `upsertListing` transaction succeeds.  On success
the loop continues with `stepState`; on failure the transaction rolls back
and the exception aborts the loop (there is no per-snapshot catch), after
`stats.found++` has already run. -/
def runLoop (now : Int) : LoopState → List (Snapshot × Bool) → LoopState
  | st, [] => st
  | st, (s, ok) :: rest =>
    if ok then
      runLoop now (stepState now st s) rest
    else
      ⟨st.db, { st.stats with found := st.stats.found + 1 }, st.ids, true⟩

/-- `runScrape` from index.js, lines 45-122, restricted to its store
interactions: open a run, reconcile the batch sequentially, then either
(catch path) mark the run failed and rethrow, or (success path) apply
retirement with the collected ids and complete the run. -/
def runScrape (db : DB) (now : Int) (batch : List (Snapshot × Bool)) :
    DB × Except String Stats :=
  let p := startScrapeRun db now
  let st := runLoop now ⟨p.1, ⟨0, 0, 0, 0⟩, [], false⟩ batch
  if st.aborted then
    (failScrapeRun st.db now p.2 storeFailureMessage,
     Except.error storeFailureMessage)
  else
    let db2 := markInactiveListings st.db now st.ids
    (completeScrapeRun db2 now p.2 st.stats, Except.ok st.stats)

/-! ### Store well-formedness and lookup lemmas -/

/-- The uniqueness PostgreSQL enforces on the `listings` table: primary
keys are pairwise distinct and below the SERIAL counter. -/
def DB.WF (db : DB) : Prop :=
  (db.listings.map Listing.id).Nodup ∧ ∀ l ∈ db.listings, l.id < db.nextListingId

theorem find?_map_comm {α : Type} (p : α → Bool) (f : α → α) :
    ∀ xs : List α, (∀ x ∈ xs, p (f x) = p x) →
      (xs.map f).find? p = (xs.find? p).map f
  | [], _ => rfl
  | a :: t, h => by
    have ha : p (f a) = p a := h a (by simp)
    cases hpa : p a with
    | true =>
      rw [List.map_cons, List.find?_cons_of_pos _ (by rw [ha, hpa]),
        List.find?_cons_of_pos _ hpa, Option.map_some']
    | false =>
      rw [List.map_cons, List.find?_cons_of_neg _ (by rw [ha, hpa]; simp),
        List.find?_cons_of_neg _ (by rw [hpa]; simp)]
      exact find?_map_comm p f t (fun x hx => h x (by simp [hx]))

theorem listings_upsert_insert (db : DB) (now : Int) (s : Snapshot)
    (hf : findListing db s.detailUrl = none) :
    (upsertListing db now s).1.listings =
      db.listings ++ [insertedRow now s db.nextListingId] := by
  simp [upsertListing, hf, recordPrice, apply_ite DB.listings]

theorem listings_upsert_update (db : DB) (now : Int) (s : Snapshot) (l : Listing)
    (hf : findListing db s.detailUrl = some l) :
    (upsertListing db now s).1.listings =
      db.listings.map (fun x => if x.id == l.id then updatedRow now s x else x) := by
  simp [upsertListing, hf, recordPrice, apply_ite DB.listings]

theorem result_upsert_insert (db : DB) (now : Int) (s : Snapshot)
    (hf : findListing db s.detailUrl = none) :
    (upsertListing db now s).2 = ⟨db.nextListingId, true, false, none, s.price⟩ := by
  simp [upsertListing, hf]

theorem result_upsert_update (db : DB) (now : Int) (s : Snapshot) (l : Listing)
    (hf : findListing db s.detailUrl = some l) :
    (upsertListing db now s).2 =
      ⟨l.id, false, truthyInt s.price && truthyInt l.price && (s.price != l.price),
       l.price, s.price⟩ := by
  simp [upsertListing, hf]

theorem priceHistory_upsert_insert (db : DB) (now : Int) (s : Snapshot)
    (hf : findListing db s.detailUrl = none) :
    (upsertListing db now s).1.priceHistory =
      if truthyInt s.price then
        db.priceHistory ++ [⟨db.nextListingId, s.price.getD 0, now⟩]
      else db.priceHistory := by
  simp [upsertListing, hf, recordPrice, apply_ite DB.priceHistory]

theorem priceHistory_upsert_update (db : DB) (now : Int) (s : Snapshot) (l : Listing)
    (hf : findListing db s.detailUrl = some l) :
    (upsertListing db now s).1.priceHistory =
      if truthyInt s.price && truthyInt l.price && (s.price != l.price) then
        db.priceHistory ++ [⟨l.id, s.price.getD 0, now⟩]
      else db.priceHistory := by
  simp [upsertListing, hf, recordPrice, apply_ite DB.priceHistory]

theorem nextListingId_upsert_insert (db : DB) (now : Int) (s : Snapshot)
    (hf : findListing db s.detailUrl = none) :
    (upsertListing db now s).1.nextListingId = db.nextListingId + 1 := by
  simp [upsertListing, hf, recordPrice, apply_ite DB.nextListingId]

theorem nextListingId_upsert_update (db : DB) (now : Int) (s : Snapshot) (l : Listing)
    (hf : findListing db s.detailUrl = some l) :
    (upsertListing db now s).1.nextListingId = db.nextListingId := by
  simp [upsertListing, hf, recordPrice, apply_ite DB.nextListingId]

theorem scrapeRuns_upsert (db : DB) (now : Int) (s : Snapshot) :
    (upsertListing db now s).1.scrapeRuns = db.scrapeRuns := by
  cases hf : findListing db s.detailUrl <;>
    simp [upsertListing, hf, recordPrice, apply_ite DB.scrapeRuns]

theorem alerts_upsert (db : DB) (now : Int) (s : Snapshot) :
    (upsertListing db now s).1.alerts = db.alerts := by
  cases hf : findListing db s.detailUrl <;>
    simp [upsertListing, hf, recordPrice, apply_ite DB.alerts]

theorem nextRunId_upsert (db : DB) (now : Int) (s : Snapshot) :
    (upsertListing db now s).1.nextRunId = db.nextRunId := by
  cases hf : findListing db s.detailUrl <;>
    simp [upsertListing, hf, recordPrice, apply_ite DB.nextRunId]

theorem updatedRow_id (now : Int) (s : Snapshot) (x : Listing) :
    (updatedRow now s x).id = x.id := rfl

theorem updatedRow_realtorUrl (now : Int) (s : Snapshot) (x : Listing) :
    (updatedRow now s x).realtorUrl = x.realtorUrl := rfl

/-- After an upsert, the lookup for the snapshot's own URL finds the
freshly inserted row. -/
theorem findListing_upsert_self_insert (db : DB) (now : Int) (s : Snapshot)
    (hf : findListing db s.detailUrl = none) :
    findListing (upsertListing db now s).1 s.detailUrl =
      some (insertedRow now s db.nextListingId) := by
  have hf' : db.listings.find? (fun l => l.realtorUrl == s.detailUrl) = none := hf
  rw [findListing, listings_upsert_insert db now s hf, List.find?_append, hf']
  simp [insertedRow]

/-- After an upsert onto an existing row, the lookup for the snapshot's own
URL finds that row with the UPDATE applied. -/
theorem findListing_upsert_self_update (db : DB) (now : Int) (s : Snapshot)
    (l : Listing) (hf : findListing db s.detailUrl = some l) :
    findListing (upsertListing db now s).1 s.detailUrl =
      some (updatedRow now s l) := by
  have hf' : db.listings.find? (fun x => x.realtorUrl == s.detailUrl) = some l := hf
  rw [findListing, listings_upsert_update db now s l hf,
    find?_map_comm _ _ _ (fun x _ => by
      by_cases hid : x.id = l.id <;> simp [hid, updatedRow]),
    hf', Option.map_some']
  simp

/-- An upsert whose snapshot has a different URL leaves the lookup for `u`
unchanged (uniqueness of primary keys is needed because the UPDATE
addresses its row by id). -/
theorem findListing_upsert_frame (db : DB) (now : Int) (s : Snapshot) (u : String)
    (hWF : db.WF) (hne : u ≠ s.detailUrl) :
    findListing (upsertListing db now s).1 u = findListing db u := by
  cases hf : findListing db s.detailUrl with
  | none =>
    rw [findListing, listings_upsert_insert db now s hf, List.find?_append]
    have hrow : ((insertedRow now s db.nextListingId).realtorUrl == u) = false := by
      simp [insertedRow]
      exact fun h => hne h.symm
    have hsingle : List.find? (fun l => l.realtorUrl == u) [insertedRow now s db.nextListingId] = none := by
      simp [List.find?_cons, hrow]
    rw [hsingle, Option.or_none]
    rfl
  | some l =>
    have hlmem : l ∈ db.listings := List.mem_of_find?_eq_some hf
    have hf2 : db.listings.find? (fun x => x.realtorUrl == s.detailUrl) = some l := hf
    have hlurl : l.realtorUrl = s.detailUrl := by
      have h := List.find?_some hf2
      simpa using h
    rw [findListing, listings_upsert_update db now s l hf,
      find?_map_comm _ _ _ (fun x _ => by
        by_cases hid : x.id = l.id <;> simp [hid, updatedRow])]
    cases hu : findListing db u with
    | none =>
      have hu' : db.listings.find? (fun x => x.realtorUrl == u) = none := hu
      rw [hu', Option.map_none']
    | some x =>
      have hxmem : x ∈ db.listings := List.mem_of_find?_eq_some hu
      have hu' : db.listings.find? (fun y => y.realtorUrl == u) = some x := hu
      have hxurl : x.realtorUrl = u := by
        have h := List.find?_some hu'
        simpa using h
      have hxl : x ≠ l := fun hxl => hne (by rw [← hxurl, hxl, hlurl])
      have hxid : ¬ (x.id == l.id) = true := by
        simp only [beq_iff_eq]
        exact fun hid => hxl (List.inj_on_of_nodup_map hWF.1 hxmem hlmem hid)
      rw [hu', Option.map_some']
      simp only [Bool.not_eq_true] at hxid
      simp [hxid]

/-- Upserting preserves the key uniqueness invariant. -/
theorem upsert_WF (db : DB) (now : Int) (s : Snapshot) (h : db.WF) :
    (upsertListing db now s).1.WF := by
  cases hf : findListing db s.detailUrl with
  | none =>
    constructor
    · rw [listings_upsert_insert db now s hf, List.map_append]
      refine List.Nodup.append h.1 (List.nodup_singleton _) ?_
      intro a ha hb
      simp only [List.map_cons, List.map_nil, List.mem_singleton] at hb
      rcases List.mem_map.mp ha with ⟨x, hx, hxa⟩
      have hxlt := h.2 x hx
      have hbn : a = db.nextListingId := by simpa [insertedRow] using hb
      omega
    · intro l hl
      rw [listings_upsert_insert db now s hf] at hl
      rw [nextListingId_upsert_insert db now s hf]
      rcases List.mem_append.mp hl with hl | hl
      · have := h.2 l hl
        omega
      · rcases List.mem_singleton.mp hl with rfl
        simp only [insertedRow]
        omega
  | some l =>
    constructor
    · rw [listings_upsert_update db now s l hf, List.map_map]
      have heq : db.listings.map
          (Listing.id ∘ fun x => if x.id == l.id then updatedRow now s x else x) =
          db.listings.map Listing.id := by
        refine List.map_congr_left (fun x _ => ?_)
        by_cases hid : x.id = l.id <;> simp [hid, updatedRow]
      rw [heq]
      exact h.1
    · intro x hx
      rw [listings_upsert_update db now s l hf] at hx
      rw [nextListingId_upsert_update db now s l hf]
      rcases List.mem_map.mp hx with ⟨y, hy, hyx⟩
      have hylt := h.2 y hy
      have hid : x.id = y.id := by
        by_cases hc : (y.id == l.id) = true
        · rw [if_pos hc] at hyx
          rw [← hyx]
          rfl
        · rw [if_neg hc] at hyx
          rw [← hyx]
      omega

/-! ### Concrete fixtures for witnesses and counterexamples -/

def emptyDB : DB := ⟨[], [], [], [], 0, 0⟩

def sampleSnap (url : String) (price : Option Int) : Snapshot :=
  ⟨url, price, "1 Main St", none, none, 3, 2, none, none, none, none, none⟩

def sampleListing : Listing :=
  ⟨0, "u1", some 500000, "1 Main St", none, none, 3, 2, none, none, none,
   ["img1"], none, 5, 5, true, 5, 5⟩

def oneListingDB : DB := ⟨[sampleListing], [⟨0, 500000, 5⟩], [], [], 1, 0⟩

def zeroPriceListing : Listing :=
  ⟨0, "u1", some 0, "1 Main St", none, none, 3, 2, none, none, none,
   ["img1"], none, 5, 5, true, 5, 5⟩

def zeroPriceDB : DB := ⟨[zeroPriceListing], [], [], [], 1, 0⟩

/-! ### C1 -/

/-- C1 (amended): for a snapshot whose source URL has no existing listing,
`upsertListing` inserts a new listing with active=true and first_seen_at
equal to last_seen_at, returns isNew=true, and inserts exactly one
PricePoint with the snapshot's price when the price is known and nonzero —
and no PricePoint when the price is unknown or zero. -/
theorem upsert_new_listing (db : DB) (now : Int) (s : Snapshot)
    (hf : findListing db s.detailUrl = none) :
    (upsertListing db now s).2.isNew = true ∧
    (upsertListing db now s).2.priceChanged = false ∧
    (upsertListing db now s).1.listings =
      db.listings ++ [insertedRow now s db.nextListingId] ∧
    (insertedRow now s db.nextListingId).isActive = true ∧
    (insertedRow now s db.nextListingId).firstSeenAt =
      (insertedRow now s db.nextListingId).lastSeenAt ∧
    (insertedRow now s db.nextListingId).price = s.price ∧
    (∀ p : Int, s.price = some p → p ≠ 0 →
      (upsertListing db now s).1.priceHistory =
        db.priceHistory ++ [⟨db.nextListingId, p, now⟩]) ∧
    ((s.price = none ∨ s.price = some 0) →
      (upsertListing db now s).1.priceHistory = db.priceHistory) := by
  refine ⟨?_, ?_, listings_upsert_insert db now s hf, rfl, rfl, rfl, ?_, ?_⟩
  · rw [result_upsert_insert db now s hf]
  · rw [result_upsert_insert db now s hf]
  · intro p hp hp0
    rw [priceHistory_upsert_insert db now s hf, hp]
    simp [truthyInt, bne_iff_ne, hp0]
  · intro h
    rw [priceHistory_upsert_insert db now s hf]
    rcases h with h | h <;> rw [h] <;> simp [truthyInt]

theorem upsert_new_listing_witness :
    findListing emptyDB "u1" = none ∧
    (upsertListing emptyDB 10 (sampleSnap "u1" (some 500000))).2.isNew = true ∧
    (upsertListing emptyDB 10 (sampleSnap "u1" (some 500000))).1.priceHistory =
      [] ++ [⟨0, 500000, 10⟩] :=
  have h := upsert_new_listing emptyDB 10 (sampleSnap "u1" (some 500000)) rfl
  ⟨rfl, h.1, h.2.2.2.2.2.2.1 500000 rfl (by decide)⟩

/-- C1 counterexample: a snapshot with the known (non-null) price 0 on a
fresh URL yields isNew=true but inserts NO PricePoint, refuting the claim
that a known price always gets exactly one initial PricePoint. -/
theorem upsert_new_listing_zero_price_cex :
    ((sampleSnap "u0" (some 0)).price).isSome = true ∧
    (upsertListing emptyDB 10 (sampleSnap "u0" (some 0))).2.isNew = true ∧
    (upsertListing emptyDB 10 (sampleSnap "u0" (some 0))).1.priceHistory = [] :=
  ⟨rfl, rfl, rfl⟩

/-! ### C9 -/

/-- C9: an upsert onto an existing listing whose snapshot supplies no image
list leaves the stored image list (and every other column not in the SET
clause) unchanged, while price, last_seen_at, updated_at and active are
updated. -/
theorem upsert_preserves_images_when_absent (db : DB) (now : Int) (s : Snapshot)
    (l : Listing) (himg : s.imageUrls = none)
    (hf : findListing db s.detailUrl = some l) :
    (upsertListing db now s).2.isNew = false ∧
    (upsertListing db now s).1.listings = db.listings.map (fun x =>
      if x.id == l.id then
        { x with price := s.price, lastSeenAt := now, updatedAt := now,
                 isActive := true }
      else x) := by
  constructor
  · rw [result_upsert_update db now s l hf]
  · rw [listings_upsert_update db now s l hf]
    refine List.map_congr_left (fun x _ => ?_)
    by_cases hc : (x.id == l.id) = true
    · rw [if_pos hc, if_pos hc]
      simp [updatedRow, himg]
    · rw [if_neg hc, if_neg hc]

theorem upsert_preserves_images_when_absent_witness :
    (upsertListing oneListingDB 10 (sampleSnap "u1" none)).2.isNew = false ∧
    (upsertListing oneListingDB 10 (sampleSnap "u1" none)).1.listings =
      oneListingDB.listings.map (fun x =>
        if x.id == sampleListing.id then
          { x with price := (sampleSnap "u1" none).price, lastSeenAt := 10,
                   updatedAt := 10, isActive := true }
        else x) :=
  upsert_preserves_images_when_absent oneListingDB 10 (sampleSnap "u1" none)
    sampleListing rfl rfl

/-! ### C10 -/

/-- C10: a snapshot price of exactly 0 is treated as unknown for history
and change purposes — no initial PricePoint on insert, no PricePoint and
priceChanged=false on update — while the stored price column is still
overwritten with 0; and a stored price of 0 likewise suppresses
price-change detection for any later snapshot. -/
theorem upsert_zero_price_policy (db : DB) (now : Int) (s : Snapshot) (l : Listing) :
    (s.price = some 0 → findListing db s.detailUrl = none →
      (upsertListing db now s).2.isNew = true ∧
      (upsertListing db now s).1.priceHistory = db.priceHistory ∧
      (insertedRow now s db.nextListingId).price = some 0 ∧
      (upsertListing db now s).1.listings =
        db.listings ++ [insertedRow now s db.nextListingId]) ∧
    (s.price = some 0 → findListing db s.detailUrl = some l →
      (upsertListing db now s).2.priceChanged = false ∧
      (upsertListing db now s).1.priceHistory = db.priceHistory ∧
      findListing (upsertListing db now s).1 s.detailUrl =
        some (updatedRow now s l) ∧
      (updatedRow now s l).price = some 0) ∧
    (l.price = some 0 → findListing db s.detailUrl = some l →
      (upsertListing db now s).2.priceChanged = false ∧
      (upsertListing db now s).1.priceHistory = db.priceHistory) := by
  refine ⟨fun hp hf => ?_, fun hp hf => ?_, fun hp hf => ?_⟩
  · refine ⟨?_, ?_, ?_, listings_upsert_insert db now s hf⟩
    · rw [result_upsert_insert db now s hf]
    · rw [priceHistory_upsert_insert db now s hf, hp]
      simp [truthyInt]
    · simp [insertedRow, hp]
  · refine ⟨?_, ?_, findListing_upsert_self_update db now s l hf, ?_⟩
    · rw [result_upsert_update db now s l hf]
      simp [hp, truthyInt]
    · rw [priceHistory_upsert_update db now s l hf, hp]
      simp [truthyInt]
    · simp [updatedRow, hp]
  · constructor
    · rw [result_upsert_update db now s l hf]
      simp [hp, truthyInt]
    · rw [priceHistory_upsert_update db now s l hf, hp]
      simp [truthyInt]

theorem upsert_zero_price_policy_witness :
    ((upsertListing emptyDB 10 (sampleSnap "u2" (some 0))).2.isNew = true ∧
      (upsertListing emptyDB 10 (sampleSnap "u2" (some 0))).1.priceHistory =
        emptyDB.priceHistory ∧
      (insertedRow 10 (sampleSnap "u2" (some 0)) emptyDB.nextListingId).price =
        some 0 ∧
      (upsertListing emptyDB 10 (sampleSnap "u2" (some 0))).1.listings =
        emptyDB.listings ++
          [insertedRow 10 (sampleSnap "u2" (some 0)) emptyDB.nextListingId]) ∧
    ((upsertListing oneListingDB 10 (sampleSnap "u1" (some 0))).2.priceChanged =
        false ∧
      (upsertListing oneListingDB 10 (sampleSnap "u1" (some 0))).1.priceHistory =
        oneListingDB.priceHistory) ∧
    ((upsertListing zeroPriceDB 10 (sampleSnap "u1" (some 700000))).2.priceChanged =
        false ∧
      (upsertListing zeroPriceDB 10 (sampleSnap "u1" (some 700000))).1.priceHistory =
        zeroPriceDB.priceHistory) :=
  ⟨(upsert_zero_price_policy emptyDB 10 (sampleSnap "u2" (some 0)) sampleListing).1
      rfl rfl,
   (fun h => ⟨h.1, h.2.1⟩)
     ((upsert_zero_price_policy oneListingDB 10 (sampleSnap "u1" (some 0))
        sampleListing).2.1 rfl rfl),
   (upsert_zero_price_policy zeroPriceDB 10 (sampleSnap "u1" (some 700000))
      zeroPriceListing).2.2 rfl rfl⟩

/-! ### C4 -/

def staleActiveListing : Listing :=
  ⟨0, "u1", some 500000, "1 Main St", none, none, 3, 2, none, none, none,
   [], none, 0, 0, true, 0, 0⟩

def staleActiveDB : DB := ⟨[staleActiveListing], [], [], [], 1, 0⟩

/-- C4 (amended): when the observed active-id set is NONEMPTY, retirement
marks inactive exactly the currently-active listings that are not in the
set and whose last_seen_at is older than the 24-hour grace window; rows in
the set, rows younger than the grace window, and already-inactive rows are
left untouched.  (With an empty observed set the operation is an early
no-op — see the counterexample.) -/
theorem markInactiveListings_retires_exactly_stale (db : DB) (now : Int)
    (activeIds : List Nat) (h : activeIds ≠ []) :
    List.Forall₂ (fun l l' =>
        (l.id ∈ activeIds → l' = l) ∧
        (l.isActive = false → l' = l) ∧
        (now - graceWindow ≤ l.lastSeenAt → l' = l) ∧
        (l.isActive = true → l.id ∉ activeIds → l.lastSeenAt < now - graceWindow →
          l' = { l with isActive := false, updatedAt := now }))
      db.listings (markInactiveListings db now activeIds).listings := by
  have hne : activeIds.isEmpty = false := by
    cases activeIds with
    | nil => exact absurd rfl h
    | cons a t => rfl
  rw [markInactiveListings, hne]
  simp only [Bool.false_eq_true, if_false]
  rw [List.forall₂_map_right_iff, List.forall₂_same]
  intro x _
  refine ⟨fun hmem => ?_, fun hina => ?_, fun hyoung => ?_, fun ha hnm hold => ?_⟩
  · simp [hmem]
  · simp [hina]
  · have hy : ¬ x.lastSeenAt < now - graceWindow := not_lt.mpr hyoung
    simp [hy]
  · simp [hnm, ha, hold]

theorem markInactiveListings_retires_exactly_stale_witness :
    List.Forall₂ (fun l l' =>
        (l.id ∈ [5] → l' = l) ∧
        (l.isActive = false → l' = l) ∧
        ((graceWindow + 999) - graceWindow ≤ l.lastSeenAt → l' = l) ∧
        (l.isActive = true → l.id ∉ [5] →
          l.lastSeenAt < (graceWindow + 999) - graceWindow →
          l' = { l with isActive := false, updatedAt := graceWindow + 999 }))
      staleActiveDB.listings
      (markInactiveListings staleActiveDB (graceWindow + 999) [5]).listings :=
  markInactiveListings_retires_exactly_stale staleActiveDB (graceWindow + 999) [5]
    (by simp)

/-- C4 counterexample: with an EMPTY observed set, a currently-active
listing that is absent from the set and staler than the grace window is
NOT marked inactive — the early return makes the call a no-op — refuting
the claim for the empty set of observed URLs. -/
theorem markInactiveListings_empty_set_cex :
    staleActiveListing.isActive = true ∧
    staleActiveListing.lastSeenAt < (graceWindow + 999) - graceWindow ∧
    (markInactiveListings staleActiveDB (graceWindow + 999) []).listings =
      [staleActiveListing] := by
  refine ⟨rfl, by decide, rfl⟩

/-! ### C8 -/

/-- Number of ScrapeRuns in status running. -/
def countRunning (db : DB) : Nat :=
  (db.scrapeRuns.filter (fun r => r.status == RunStatus.running)).length

/-- C8 (amended): the coordinator performs NO mutual-exclusion check:
`startScrapeRun` unconditionally inserts a fresh ScrapeRun with status
running, so every call increases the number of running runs by one and a
new pass starts even while another ScrapeRun is still running. -/
theorem startScrapeRun_no_mutex (db : DB) (now : Int) :
    countRunning (startScrapeRun db now).1 = countRunning db + 1 := by
  simp [countRunning, startScrapeRun, List.filter_append]

/-- C8 counterexample: two successive `startScrapeRun` calls — what two
overlapping `runScrape` invocations perform — reach a state with TWO
ScrapeRuns simultaneously in status running, refuting "at most one
ScrapeRun is in status running at any reachable state". -/
theorem startScrapeRun_two_running_cex :
    countRunning (startScrapeRun (startScrapeRun emptyDB 1).1 2).1 = 2 := rfl

/-! ### C3 -/

def c3db1 : DB := (upsertListing emptyDB 10 (sampleSnap "u1" (some 500000))).1

def c3db2 : DB := (upsertListing c3db1 20 (sampleSnap "u1" none)).1

/-- C3 (amended): a null-price snapshot for an existing listing records no
PricePoint and reports priceChanged=false, but it also OVERWRITES the
stored price with null; a subsequent priced snapshot for the same URL is
therefore compared against the stored null — not against the last known
non-null price — and reports priceChanged=false and appends no PricePoint. -/
theorem upsert_null_overwrites_then_no_change (db : DB) (now1 now2 : Int)
    (s1 s2 : Snapshot) (l : Listing)
    (hf : findListing db s1.detailUrl = some l)
    (hs1 : s1.price = none) (hurl : s2.detailUrl = s1.detailUrl) :
    (upsertListing db now1 s1).2.priceChanged = false ∧
    (upsertListing db now1 s1).1.priceHistory = db.priceHistory ∧
    findListing (upsertListing db now1 s1).1 s1.detailUrl =
      some (updatedRow now1 s1 l) ∧
    (updatedRow now1 s1 l).price = none ∧
    (upsertListing (upsertListing db now1 s1).1 now2 s2).2.priceChanged = false ∧
    (upsertListing (upsertListing db now1 s1).1 now2 s2).1.priceHistory =
      (upsertListing db now1 s1).1.priceHistory := by
  have hf1 := findListing_upsert_self_update db now1 s1 l hf
  have hf2 : findListing (upsertListing db now1 s1).1 s2.detailUrl =
      some (updatedRow now1 s1 l) := by
    rw [hurl]
    exact hf1
  have hup : (updatedRow now1 s1 l).price = none := by
    simp [updatedRow, hs1]
  refine ⟨?_, ?_, hf1, hup, ?_, ?_⟩
  · rw [result_upsert_update db now1 s1 l hf]
    simp [hs1, truthyInt]
  · rw [priceHistory_upsert_update db now1 s1 l hf]
    simp [hs1, truthyInt]
  · rw [result_upsert_update _ now2 s2 _ hf2]
    simp [hup, truthyInt]
  · rw [priceHistory_upsert_update _ now2 s2 _ hf2]
    simp [hup, truthyInt]

theorem upsert_null_overwrites_then_no_change_witness :
    (upsertListing c3db1 20 (sampleSnap "u1" none)).2.priceChanged = false ∧
    (upsertListing c3db1 20 (sampleSnap "u1" none)).1.priceHistory =
      c3db1.priceHistory ∧
    findListing (upsertListing c3db1 20 (sampleSnap "u1" none)).1
        (sampleSnap "u1" none).detailUrl =
      some (updatedRow 20 (sampleSnap "u1" none)
        (insertedRow 10 (sampleSnap "u1" (some 500000)) 0)) ∧
    (updatedRow 20 (sampleSnap "u1" none)
        (insertedRow 10 (sampleSnap "u1" (some 500000)) 0)).price = none ∧
    (upsertListing (upsertListing c3db1 20 (sampleSnap "u1" none)).1 30
        (sampleSnap "u1" (some 510000))).2.priceChanged = false ∧
    (upsertListing (upsertListing c3db1 20 (sampleSnap "u1" none)).1 30
        (sampleSnap "u1" (some 510000))).1.priceHistory =
      (upsertListing c3db1 20 (sampleSnap "u1" none)).1.priceHistory :=
  upsert_null_overwrites_then_no_change c3db1 20 30 (sampleSnap "u1" none)
    (sampleSnap "u1" (some 510000))
    (insertedRow 10 (sampleSnap "u1" (some 500000)) 0) rfl rfl rfl

/-- C3 counterexample: after 500000 then null, the snapshot with 510000 is
NOT reported as a price change and appends NO PricePoint (the history still
holds only the initial 500000 entry), refuting the claim that the
comparison uses the last known non-null price. -/
theorem upsert_null_then_price_cex :
    (upsertListing c3db2 30 (sampleSnap "u1" (some 510000))).2.priceChanged =
      false ∧
    (upsertListing c3db2 30 (sampleSnap "u1" (some 510000))).1.priceHistory =
      [⟨0, 500000, 10⟩] :=
  ⟨rfl, rfl⟩

/-! ### C7 — Alert Deriver

The repository declares the Alert store operation (`createAlert` in db.js)
but nothing in the source invokes it: the Alert Deriver of the spec is not
present under the scraper or backend sources.  Its dispatch logic is
therefore modelled from the spec and proved against that model, with
`createAlert` itself embedded from db.js. -/

/-- An interested user as the spec describes one: identified by id, with
the saved search that matched (if any) and an alerts-enabled flag. -/
structure InterestedUser where
  userId : Nat
  savedSearchId : Option Nat
  alertsEnabled : Bool
deriving DecidableEq, Repr

/-- Modelled from the spec: the Alert Deriver invocation is missing from
the source (db.js only declares `createAlert`; no caller exists).  Per spec
§4.3, given a reconciliation event it creates, for each interested user
with alerts enabled, one Alert: `new_listing` (old price null, new price =
current) when isNew; `price_drop` when priceChanged and new < old;
`price_increase` when priceChanged and new > old; nothing otherwise. -/
def deriveAlerts (db : DB) (users : List InterestedUser) (ev : UpsertResult) : DB :=
  if ev.isNew then
    users.foldl (fun d u =>
      if u.alertsEnabled then
        createAlert d u.userId ev.listingId AlertType.new_listing
          u.savedSearchId none ev.newPrice
      else d) db
  else if ev.priceChanged then
    match ev.oldPrice, ev.newPrice with
    | some op, some np =>
      if np < op then
        users.foldl (fun d u =>
          if u.alertsEnabled then
            createAlert d u.userId ev.listingId AlertType.price_drop
              u.savedSearchId (some op) (some np)
          else d) db
      else if op < np then
        users.foldl (fun d u =>
          if u.alertsEnabled then
            createAlert d u.userId ev.listingId AlertType.price_increase
              u.savedSearchId (some op) (some np)
          else d) db
      else db
    | _, _ => db
  else db

theorem alerts_foldl (users : List InterestedUser) (db : DB)
    (mk : InterestedUser → Alert) :
    (users.foldl (fun d u => if u.alertsEnabled then
        { d with alerts := d.alerts ++ [mk u] } else d) db).alerts =
      db.alerts ++ (users.filter (fun u => u.alertsEnabled)).map mk := by
  induction users generalizing db with
  | nil => simp
  | cons u t ih =>
    by_cases hu : u.alertsEnabled = true
    · simp [List.foldl_cons, hu, ih]
    · simp only [Bool.not_eq_true] at hu
      simp [List.foldl_cons, hu, ih]

/-- C7: for every reconciliation event, the (spec-modelled) Alert Deriver
creates exactly one Alert per interested user with alerts enabled — type
`new_listing` with old price null and new price the current price when
isNew, `price_drop` when the price fell, `price_increase` when it rose —
and creates no Alert for an unchanged snapshot. -/
theorem deriveAlerts_contract (db : DB) (users : List InterestedUser)
    (ev : UpsertResult) :
    (ev.isNew = true →
      (deriveAlerts db users ev).alerts = db.alerts ++
        (users.filter (fun u => u.alertsEnabled)).map (fun u =>
          ⟨u.userId, ev.listingId, u.savedSearchId, AlertType.new_listing,
           none, ev.newPrice⟩)) ∧
    (∀ op np : Int, ev.isNew = false → ev.priceChanged = true →
      ev.oldPrice = some op → ev.newPrice = some np →
      (np < op →
        (deriveAlerts db users ev).alerts = db.alerts ++
          (users.filter (fun u => u.alertsEnabled)).map (fun u =>
            ⟨u.userId, ev.listingId, u.savedSearchId, AlertType.price_drop,
             some op, some np⟩)) ∧
      (op < np →
        (deriveAlerts db users ev).alerts = db.alerts ++
          (users.filter (fun u => u.alertsEnabled)).map (fun u =>
            ⟨u.userId, ev.listingId, u.savedSearchId, AlertType.price_increase,
             some op, some np⟩))) ∧
    (ev.isNew = false → ev.priceChanged = false →
      (deriveAlerts db users ev).alerts = db.alerts) := by
  refine ⟨fun hnew => ?_, fun op np h1 h2 hop hnp => ⟨fun hlt => ?_, fun hgt => ?_⟩,
    fun h1 h2 => ?_⟩
  · simp only [deriveAlerts, hnew, if_true, createAlert]
    exact alerts_foldl users db _
  · simp only [deriveAlerts, h1, h2, hop, hnp, Bool.false_eq_true, if_false,
      if_true, hlt, if_pos, createAlert]
    exact alerts_foldl users db _
  · have hnlt : ¬ np < op := by omega
    simp only [deriveAlerts, h1, h2, hop, hnp, Bool.false_eq_true, if_false,
      if_true, hnlt, hgt, if_pos, if_neg, createAlert]
    exact alerts_foldl users db _
  · simp [deriveAlerts, h1, h2]

theorem deriveAlerts_contract_witness :
    (deriveAlerts emptyDB [⟨1, none, true⟩, ⟨2, some 3, false⟩]
        ⟨0, true, false, none, some 500000⟩).alerts =
      emptyDB.alerts ++
        (([⟨1, none, true⟩, ⟨2, some 3, false⟩] :
            List InterestedUser).filter (fun u => u.alertsEnabled)).map (fun u =>
          ⟨u.userId, (⟨0, true, false, none, some 500000⟩ :
              UpsertResult).listingId, u.savedSearchId, AlertType.new_listing,
           none, (⟨0, true, false, none, some 500000⟩ :
              UpsertResult).newPrice⟩) :=
  (deriveAlerts_contract emptyDB [⟨1, none, true⟩, ⟨2, some 3, false⟩]
    ⟨0, true, false, none, some 500000⟩).1 rfl

/-! ### C2 — batch idempotence -/

theorem applyBatch_nil (now : Int) (db : DB) : applyBatch now db [] = (db, []) := rfl

theorem applyBatch_cons_fst (now : Int) (db : DB) (s : Snapshot) (rest : List Snapshot) :
    (applyBatch now db (s :: rest)).1 =
      (applyBatch now (upsertListing db now s).1 rest).1 := by
  simp [applyBatch]

theorem applyBatch_cons_snd (now : Int) (db : DB) (s : Snapshot) (rest : List Snapshot) :
    (applyBatch now db (s :: rest)).2 =
      (upsertListing db now s).2 ::
        (applyBatch now (upsertListing db now s).1 rest).2 := by
  simp [applyBatch]

theorem applyBatch_WF (now : Int) (snaps : List Snapshot) :
    ∀ db : DB, db.WF → (applyBatch now db snaps).1.WF := by
  induction snaps with
  | nil => exact fun db h => h
  | cons s rest ih =>
    intro db h
    rw [applyBatch_cons_fst]
    exact ih _ (upsert_WF db now s h)

theorem findListing_applyBatch_frame (now : Int) (snaps : List Snapshot) :
    ∀ db : DB, ∀ u : String, db.WF → (∀ s ∈ snaps, u ≠ s.detailUrl) →
      findListing (applyBatch now db snaps).1 u = findListing db u := by
  induction snaps with
  | nil => exact fun db u _ _ => rfl
  | cons s rest ih =>
    intro db u hWF hu
    rw [applyBatch_cons_fst,
      ih _ u (upsert_WF db now s hWF) (fun x hx => hu x (by simp [hx]))]
    exact findListing_upsert_frame db now s u hWF (hu s (by simp))

/-- After one pass over a URL-deduplicated batch, each snapshot's URL
resolves to a row holding exactly that snapshot's price. -/
theorem applyBatch_synced (now : Int) (snaps : List Snapshot) :
    ∀ db : DB, db.WF → (snaps.map Snapshot.detailUrl).Nodup →
      ∀ s ∈ snaps, ∃ l, findListing (applyBatch now db snaps).1 s.detailUrl = some l ∧
        l.price = s.price := by
  induction snaps with
  | nil => intro db _ _ s hs; exact absurd hs (List.not_mem_nil s)
  | cons s0 rest ih =>
    intro db hWF hN s hs
    have hWF' := upsert_WF db now s0 hWF
    rcases List.mem_cons.mp hs with rfl | hs'
    · have hnotin : ∀ x ∈ rest, s.detailUrl ≠ x.detailUrl := by
        intro x hx heq
        have : s.detailUrl ∈ rest.map Snapshot.detailUrl :=
          List.mem_map.mpr ⟨x, hx, heq.symm⟩
        exact (List.nodup_cons.mp hN).1 this
      rw [applyBatch_cons_fst,
        findListing_applyBatch_frame now rest _ s.detailUrl hWF' hnotin]
      cases hf : findListing db s.detailUrl with
      | none =>
        exact ⟨insertedRow now s db.nextListingId,
          findListing_upsert_self_insert db now s hf, rfl⟩
      | some l =>
        exact ⟨updatedRow now s l,
          findListing_upsert_self_update db now s l hf, rfl⟩
    · rw [applyBatch_cons_fst]
      exact ih _ hWF' (List.nodup_cons.mp hN).2 s hs'

/-- A second pass over a URL-deduplicated batch whose prices are already
stored reports no new listing and no price change, and appends nothing to
the price history. -/
theorem applyBatch_second_run (now : Int) (snaps : List Snapshot) :
    ∀ db : DB, db.WF → (snaps.map Snapshot.detailUrl).Nodup →
      (∀ s ∈ snaps, ∃ l, findListing db s.detailUrl = some l ∧ l.price = s.price) →
      (∀ r ∈ (applyBatch now db snaps).2, r.isNew = false ∧ r.priceChanged = false) ∧
      (applyBatch now db snaps).1.priceHistory = db.priceHistory := by
  induction snaps with
  | nil => intro db _ _ _; exact ⟨fun r hr => absurd hr (List.not_mem_nil r), rfl⟩
  | cons s0 rest ih =>
    intro db hWF hN hS
    rcases hS s0 (by simp) with ⟨l, hf, hlp⟩
    have hchg : (truthyInt s0.price && truthyInt l.price && (s0.price != l.price))
        = false := by
      rw [hlp, bne_self_eq_false, Bool.and_false]
    have hres := result_upsert_update db now s0 l hf
    have hph : (upsertListing db now s0).1.priceHistory = db.priceHistory := by
      rw [priceHistory_upsert_update db now s0 l hf, hchg]
      simp
    have hWF' := upsert_WF db now s0 hWF
    have hS' : ∀ s ∈ rest, ∃ l', findListing (upsertListing db now s0).1 s.detailUrl
        = some l' ∧ l'.price = s.price := by
      intro s hs
      have hne : s.detailUrl ≠ s0.detailUrl := by
        intro heq
        exact (List.nodup_cons.mp hN).1
          (List.mem_map.mpr ⟨s, hs, heq⟩)
      rcases hS s (by simp [hs]) with ⟨l', hl', hp'⟩
      exact ⟨l', by rw [findListing_upsert_frame db now s0 s.detailUrl hWF hne]
                    exact hl', hp'⟩
    have hrest := ih _ hWF' (List.nodup_cons.mp hN).2 hS'
    constructor
    · intro r hr
      rw [applyBatch_cons_snd] at hr
      rcases List.mem_cons.mp hr with rfl | hr'
      · rw [hres]
        exact ⟨rfl, hchg⟩
      · exact hrest.1 r hr'
    · rw [applyBatch_cons_fst, hrest.2, hph]

/-- C2: re-running the exact same URL-deduplicated snapshot batch a second
time in immediate succession yields isNew=false and priceChanged=false for
every snapshot, and appends no PricePoint (so in particular a repeated
upsert of a URL with an unchanged price inserts no new PricePoint). -/
theorem upsert_batch_idempotent (db : DB) (n1 n2 : Int) (snaps : List Snapshot)
    (hWF : db.WF) (hN : (snaps.map Snapshot.detailUrl).Nodup) :
    (∀ r ∈ (applyBatch n2 (applyBatch n1 db snaps).1 snaps).2,
      r.isNew = false ∧ r.priceChanged = false) ∧
    (applyBatch n2 (applyBatch n1 db snaps).1 snaps).1.priceHistory =
      (applyBatch n1 db snaps).1.priceHistory :=
  applyBatch_second_run n2 snaps (applyBatch n1 db snaps).1
    (applyBatch_WF n1 snaps db hWF) hN
    (applyBatch_synced n1 snaps db hWF hN)

theorem upsert_batch_idempotent_witness :
    (∀ r ∈ (applyBatch 20
        (applyBatch 10 emptyDB
          [sampleSnap "u1" (some 500000), sampleSnap "u2" none]).1
        [sampleSnap "u1" (some 500000), sampleSnap "u2" none]).2,
      r.isNew = false ∧ r.priceChanged = false) ∧
    (applyBatch 20
        (applyBatch 10 emptyDB
          [sampleSnap "u1" (some 500000), sampleSnap "u2" none]).1
        [sampleSnap "u1" (some 500000), sampleSnap "u2" none]).1.priceHistory =
      (applyBatch 10 emptyDB
        [sampleSnap "u1" (some 500000), sampleSnap "u2" none]).1.priceHistory :=
  upsert_batch_idempotent emptyDB 10 20
    [sampleSnap "u1" (some 500000), sampleSnap "u2" none]
    ⟨List.nodup_nil, by simp [emptyDB]⟩ (by simp [sampleSnap])

/-! ### C5 / C6 — failure handling of the pass -/

theorem runLoop_nil (now : Int) (st : LoopState) : runLoop now st [] = st := rfl

theorem runLoop_cons_ok (now : Int) (st : LoopState) (s : Snapshot)
    (rest : List (Snapshot × Bool)) :
    runLoop now st ((s, true) :: rest) = runLoop now (stepState now st s) rest := rfl

theorem runLoop_cons_fail (now : Int) (st : LoopState) (s : Snapshot)
    (rest : List (Snapshot × Bool)) :
    runLoop now st ((s, false) :: rest) =
      ⟨st.db, { st.stats with found := st.stats.found + 1 }, st.ids, true⟩ := rfl

theorem stepState_db (now : Int) (st : LoopState) (s : Snapshot) :
    (stepState now st s).db = (upsertListing st.db now s).1 := rfl

theorem stepState_aborted (now : Int) (st : LoopState) (s : Snapshot) :
    (stepState now st s).aborted = st.aborted := rfl

/-- The uncaught exception of a failing upsert ends the loop on the spot:
everything after the failing snapshot is irrelevant to the outcome. -/
theorem runLoop_post_irrelevant (now : Int) :
    ∀ pre : List (Snapshot × Bool), ∀ st : LoopState, ∀ s : Snapshot,
      ∀ post : List (Snapshot × Bool),
      runLoop now st (pre ++ (s, false) :: post) =
        runLoop now st (pre ++ [(s, false)]) := by
  intro pre
  induction pre with
  | nil => intro st s post; rfl
  | cons x pre' ih =>
    intro st s post
    rcases x with ⟨s0, ok0⟩
    cases ok0
    · rfl
    · rw [List.cons_append, runLoop_cons_ok, List.cons_append, runLoop_cons_ok]
      exact ih _ s post

/-- Processing an all-successful prefix followed by a failing snapshot
leaves the store exactly as the plain upsert fold over the prefix does,
with the abort flag set. -/
theorem runLoop_ok_then_fail (now : Int) :
    ∀ pre : List Snapshot, ∀ st : LoopState, ∀ s : Snapshot,
      ∃ stats2 : Stats, ∃ ids2 : List Nat,
        runLoop now st (pre.map (fun x => (x, true)) ++ [(s, false)]) =
          ⟨(applyBatch now st.db pre).1, stats2, ids2, true⟩ := by
  intro pre
  induction pre with
  | nil =>
    intro st s
    exact ⟨{ st.stats with found := st.stats.found + 1 }, st.ids, rfl⟩
  | cons s0 pre' ih =>
    intro st s
    obtain ⟨a, b, h⟩ := ih (stepState now st s0) s
    refine ⟨a, b, ?_⟩
    rw [List.map_cons, List.cons_append, runLoop_cons_ok, h, stepState_db,
      ← applyBatch_cons_fst]

theorem startScrapeRun_fst (db : DB) (now : Int) :
    (startScrapeRun db now).1 =
      { db with
          scrapeRuns := db.scrapeRuns ++
            [⟨db.nextRunId, now, none, 0, 0, 0, 0, RunStatus.running, none⟩]
          nextRunId := db.nextRunId + 1 } := rfl

theorem startScrapeRun_snd (db : DB) (now : Int) :
    (startScrapeRun db now).2 = db.nextRunId := rfl

/-- The upsert transaction never reads or writes `scrape_runs`, so it
commutes with setting that table and its id counter. -/
theorem upsertListing_setRuns (db : DB) (now : Int) (s : Snapshot)
    (X : List ScrapeRun) (Y : Nat) :
    upsertListing { db with scrapeRuns := X, nextRunId := Y } now s =
      ({ (upsertListing db now s).1 with scrapeRuns := X, nextRunId := Y },
       (upsertListing db now s).2) := by
  have hfind : findListing { db with scrapeRuns := X, nextRunId := Y } s.detailUrl
      = findListing db s.detailUrl := rfl
  cases hf : findListing db s.detailUrl <;>
    simp [upsertListing, hfind, hf, recordPrice, apply_ite] <;>
    split <;> rfl

theorem applyBatch_setRuns (now : Int) :
    ∀ pre : List Snapshot, ∀ db : DB, ∀ X : List ScrapeRun, ∀ Y : Nat,
      applyBatch now { db with scrapeRuns := X, nextRunId := Y } pre =
        ({ (applyBatch now db pre).1 with scrapeRuns := X, nextRunId := Y },
         (applyBatch now db pre).2) := by
  intro pre
  induction pre with
  | nil => intro db X Y; rfl
  | cons s rest ih =>
    intro db X Y
    have h1 := upsertListing_setRuns db now s X Y
    refine Prod.ext ?_ ?_
    · rw [applyBatch_cons_fst, h1, ih, applyBatch_cons_fst]
    · rw [applyBatch_cons_snd, applyBatch_cons_snd, h1, ih]

theorem failScrapeRun_listings (db : DB) (now : Int) (runId : Nat) (e : String) :
    (failScrapeRun db now runId e).listings = db.listings := rfl

theorem failScrapeRun_priceHistory (db : DB) (now : Int) (runId : Nat) (e : String) :
    (failScrapeRun db now runId e).priceHistory = db.priceHistory := rfl

theorem failScrapeRun_alerts (db : DB) (now : Int) (runId : Nat) (e : String) :
    (failScrapeRun db now runId e).alerts = db.alerts := rfl

theorem applyBatch_scrapeRuns (now : Int) :
    ∀ pre : List Snapshot, ∀ db : DB,
      (applyBatch now db pre).1.scrapeRuns = db.scrapeRuns := by
  intro pre
  induction pre with
  | nil => intro db; rfl
  | cons s rest ih =>
    intro db
    rw [applyBatch_cons_fst, ih, scrapeRuns_upsert]

theorem applyBatch_alerts (now : Int) :
    ∀ pre : List Snapshot, ∀ db : DB,
      (applyBatch now db pre).1.alerts = db.alerts := by
  intro pre
  induction pre with
  | nil => intro db; rfl
  | cons s rest ih =>
    intro db
    rw [applyBatch_cons_fst, ih, alerts_upsert]

/-- C5 (amended): a store failure on a single snapshot's upsert is NOT
recovered per-snapshot: the uncaught exception aborts the batch, so the
pass outcome is identical no matter what snapshots follow the failing one
(they are never processed, no retirement runs, and the run is failed). -/
theorem runScrape_store_failure_aborts (db : DB) (now : Int)
    (pre : List (Snapshot × Bool)) (s : Snapshot)
    (post : List (Snapshot × Bool)) :
    runScrape db now (pre ++ (s, false) :: post) =
      runScrape db now (pre ++ [(s, false)]) := by
  simp only [runScrape]
  rw [runLoop_post_irrelevant]

/-- C5 counterexample: in a three-snapshot batch whose second upsert fails,
the third snapshot is never processed (its URL is absent from the store)
and the pass is aborted with a failed run — refuting "the remaining
snapshots of the batch are still processed". -/
theorem runScrape_store_failure_cex :
    (runScrape emptyDB 5 [(sampleSnap "uA" (some 7), true),
        (sampleSnap "uB" (some 8), false),
        (sampleSnap "uC" (some 9), true)]).2 =
      Except.error storeFailureMessage ∧
    (runScrape emptyDB 5 [(sampleSnap "uA" (some 7), true),
        (sampleSnap "uB" (some 8), false),
        (sampleSnap "uC" (some 9), true)]).1.listings.map Listing.realtorUrl =
      ["uA"] :=
  ⟨rfl, rfl⟩

/-- The uniqueness PostgreSQL enforces on `scrape_runs`: primary keys stay
below the SERIAL counter. -/
def RunsWF (db : DB) : Prop := ∀ r ∈ db.scrapeRuns, r.id < db.nextRunId

/-- C6: when a pass fails mid-batch, the ScrapeRun is marked failed with
error detail, no retirement is applied, and the store keeps exactly the
state produced by the upserts before the failure point (each committed
transaction survives; alerts untouched). -/
theorem runScrape_midbatch_failure (db : DB) (now : Int) (pre : List Snapshot)
    (s : Snapshot) (post : List (Snapshot × Bool)) (hR : RunsWF db) :
    (runScrape db now (pre.map (fun x => (x, true)) ++ (s, false) :: post)).2 =
      Except.error storeFailureMessage ∧
    (runScrape db now (pre.map (fun x => (x, true)) ++ (s, false) :: post)).1.listings =
      (applyBatch now db pre).1.listings ∧
    (runScrape db now (pre.map (fun x => (x, true)) ++ (s, false) :: post)).1.priceHistory =
      (applyBatch now db pre).1.priceHistory ∧
    (runScrape db now (pre.map (fun x => (x, true)) ++ (s, false) :: post)).1.alerts =
      db.alerts ∧
    (runScrape db now (pre.map (fun x => (x, true)) ++ (s, false) :: post)).1.scrapeRuns =
      db.scrapeRuns ++
        [⟨db.nextRunId, now, some now, 0, 0, 0, 0, RunStatus.failed,
          some storeFailureMessage⟩] := by
  obtain ⟨stats2, ids2, hloop⟩ := runLoop_ok_then_fail now pre
    ⟨(startScrapeRun db now).1, ⟨0, 0, 0, 0⟩, [], false⟩ s
  have hrun : runLoop now ⟨(startScrapeRun db now).1, ⟨0, 0, 0, 0⟩, [], false⟩
      (pre.map (fun x => (x, true)) ++ (s, false) :: post) =
      ⟨(applyBatch now (startScrapeRun db now).1 pre).1, stats2, ids2, true⟩ := by
    rw [runLoop_post_irrelevant]
    exact hloop
  have hdb : (applyBatch now (startScrapeRun db now).1 pre).1 =
      { (applyBatch now db pre).1 with
          scrapeRuns := db.scrapeRuns ++
            [⟨db.nextRunId, now, none, 0, 0, 0, 0, RunStatus.running, none⟩]
          nextRunId := db.nextRunId + 1 } := by
    rw [startScrapeRun_fst, applyBatch_setRuns]
  have hrs : runScrape db now (pre.map (fun x => (x, true)) ++ (s, false) :: post) =
      (failScrapeRun (applyBatch now (startScrapeRun db now).1 pre).1 now
        db.nextRunId storeFailureMessage,
       Except.error storeFailureMessage) := by
    simp only [runScrape, hrun, startScrapeRun_snd]
    simp
  rw [hrs]
  refine ⟨rfl, ?_, ?_, ?_, ?_⟩
  · rw [failScrapeRun_listings, hdb]
  · rw [failScrapeRun_priceHistory, hdb]
  · rw [failScrapeRun_alerts, hdb]
    exact applyBatch_alerts now pre db
  · rw [failScrapeRun, hdb]
    simp only
    rw [List.map_append]
    have hold : db.scrapeRuns.map (fun r =>
        if r.id == db.nextRunId then
          { r with finishedAt := some now, status := RunStatus.failed,
                   error := some storeFailureMessage }
        else r) = db.scrapeRuns := by
      have hco : ∀ r ∈ db.scrapeRuns, (fun r =>
          if r.id == db.nextRunId then
            { r with finishedAt := some now, status := RunStatus.failed,
                     error := some storeFailureMessage }
          else r) r = id r := by
        intro r hr
        have := hR r hr
        have hne : ¬ (r.id == db.nextRunId) = true := by
          simp only [beq_iff_eq]
          omega
        simp [hne]
      rw [List.map_congr_left hco, List.map_id]
    rw [hold]
    simp

theorem runScrape_midbatch_failure_witness :
    (runScrape emptyDB 5 ([sampleSnap "uA" (some 7)].map (fun x => (x, true)) ++
        (sampleSnap "uB" (some 8), false) ::
          [(sampleSnap "uC" (some 9), true)])).2 =
      Except.error storeFailureMessage ∧
    (runScrape emptyDB 5 ([sampleSnap "uA" (some 7)].map (fun x => (x, true)) ++
        (sampleSnap "uB" (some 8), false) ::
          [(sampleSnap "uC" (some 9), true)])).1.scrapeRuns =
      emptyDB.scrapeRuns ++
        [⟨emptyDB.nextRunId, 5, some 5, 0, 0, 0, 0, RunStatus.failed,
          some storeFailureMessage⟩] :=
  have h := runScrape_midbatch_failure emptyDB 5 [sampleSnap "uA" (some 7)]
    (sampleSnap "uB" (some 8)) [(sampleSnap "uC" (some 9), true)]
    (fun r hr => absurd hr (List.not_mem_nil r))
  ⟨h.1, h.2.2.2.2⟩

end Nestd
